import Mathlib

/-!
Shallow embedding of `QuantSpace/libs/qloptions.py` (commodity vanilla option
pricing on top of QuantLib) and verification of the frozen claims about it.

Embedding conventions:
* Dates are real time coordinates; the external day counters are modelled by
  the identity year fraction `yearFraction d1 d2 = d2 - d1`.
* A yield curve is a function from a date to its continuously compounded zero
  rate (the only query form the source uses: `zeroRate(date, dc, Continuous)`).
* A volatility surface is a function `(year-fraction, strike) -> vol`; the
  source's date-based query `blackVol(date, k)` is modelled as
  `vol (date - evaluation_date) k`.
* Python floats are modelled as `ℝ`; the non-finite floats flowing out of
  `scipy.stats.norm.ppf` are modelled by the `ScipyPpf` type, which keeps NaN,
  `-inf` and `+inf` apart, because IEEE arithmetic sends a `±inf` d1 either to
  a finite strike `0.0` or to a non-finite strike depending on signs.  A
  raised exception is modelled as an `Option` result being `none`; a `none`
  strike stands for a non-finite (NaN or infinite) strike float.
* The QuantLib engines themselves are external collaborators; their numerics
  are modelled from the spec (Cox-Ross-Rubinstein tree, closed-form Black
  model) as noted on each definition.
-/

set_option linter.unusedVariables false

namespace QuantSpace

/-- Python's `str.upper()` for the ASCII enum strings the source compares
against. -/
def strUpper (s : String) : String :=
  String.mk (s.data.map Char.toUpper)

/-- Option type; `ql.Option.Call` / `ql.Option.Put`. -/
inductive OptType
  | call
  | put
  deriving DecidableEq

/-- Line 34 of qloptions.py: `ql.Option.Call if option_type.upper() == 'CALL' else ql.Option.Put`.
Note that any string other than (case-insensitive) CALL is silently read as a put. -/
def optionTypeOf (s : String) : OptType :=
  if strUpper s = "CALL" then OptType.call else OptType.put

/-- Plain vanilla payoff (`ql.PlainVanillaPayoff`): `max(s-K,0)` for a call,
`max(K-s,0)` for a put. -/
def payoff : OptType → ℝ → ℝ → ℝ
  | OptType.call, K, s => max (s - K) 0
  | OptType.put, K, s => max (K - s) 0

/-- The six greek rows of a pricing column, in the order the source writes its
DataFrame index: `['price', 'delta', 'gamma', 'theta', 'vega', 'rho']`. -/
def greekRows (p d g t v r : ℝ) : List (String × ℝ) :=
  [("price", p), ("delta", d), ("gamma", g), ("theta", t), ("vega", v), ("rho", r)]

/-- One DataFrame column: its label and its rows (row label, value). -/
abbrev Col := String × List (String × ℝ)

/-- A result DataFrame: a list of labelled columns (`pd.concat(..., axis=1)`
is list append). -/
abbrev Frame := List Col

/-- Values of the first column, positionally (`frame.values` for the
single-column frames the leg pricer returns). -/
def colValues : Frame → List ℝ
  | [] => []
  | c :: _ => c.2.map Prod.snd

/-- The rows of every column with the column labels stripped. -/
def frameVals (fr : Frame) : List (List (String × ℝ)) :=
  fr.map Prod.snd

/-- The `price` row of the first column of a frame. -/
def framePrice (fr : Frame) : Option ℝ :=
  fr.head?.bind fun c => List.lookup "price" c.2

/-- The fixed greek row order the spec names. -/
def greekOrder : List String :=
  ["price", "delta", "gamma", "theta", "vega", "rho"]

/-- Every column of the (possibly absent) frame carries exactly the fixed greek
row order. -/
def allGreekOrdered (r : Option Frame) : Prop :=
  (r.getD []).map (fun c => c.2.map Prod.fst) = List.replicate (r.getD []).length greekOrder

/-! ### Normal distribution and the Black model

Modelled from the spec (§4.1, §4.3): the closed-form Black pricer and the
standard normal quantile are external collaborators (QuantLib's
`AnalyticEuropeanEngine`, scipy's `norm.ppf`); only their mathematical
interfaces are used by the source. -/

/-- Standard normal density. -/
noncomputable def normPdf (x : ℝ) : ℝ :=
  Real.exp (-(x ^ 2) / 2) / Real.sqrt (2 * Real.pi)

/-- Standard normal cumulative distribution function. -/
noncomputable def normCdf (x : ℝ) : ℝ :=
  ∫ t in Set.Iic x, normPdf t

/-- Standard normal quantile (inverse cdf), the mathematical function behind
`scipy.stats.norm.ppf`. -/
noncomputable def normPpf (p : ℝ) : ℝ :=
  Function.invFun normCdf p

/-- A float returned by `scipy.stats.norm.ppf`: finite on the open unit
interval, `-inf` at 0, `+inf` at 1, NaN strictly outside `[0,1]`. -/
inductive ScipyPpf
  | fin (x : ℝ)
  | negInf
  | posInf
  | nan

/-- Modelled from the spec and scipy's documented behaviour:
`scipy.stats.norm.ppf` is finite exactly on the open unit interval, returns
`-inf` at 0 and `+inf` at 1, and NaN strictly outside `[0,1]`. -/
noncomputable def scipy_norm_ppf (p : ℝ) : ScipyPpf :=
  if p = 0 then ScipyPpf.negInf
  else if p = 1 then ScipyPpf.posInf
  else if 0 < p ∧ p < 1 then ScipyPpf.fin (normPpf p)
  else ScipyPpf.nan

/-- Black d1. -/
noncomputable def blackD1 (F K σ T : ℝ) : ℝ :=
  (Real.log (F / K) + (σ ^ 2 / 2) * T) / (σ * Real.sqrt T)

/-- Black d2. -/
noncomputable def blackD2 (F K σ T : ℝ) : ℝ :=
  blackD1 F K σ T - σ * Real.sqrt T

/-- Modelled from the spec: closed-form Black price under the `ql.BlackProcess`
convention (driftless forward, discounting at the zero rate).  The library's
`blackFormula` special-cases a zero strike. -/
noncomputable def blackNPV : OptType → ℝ → ℝ → ℝ → ℝ → ℝ → ℝ
  | OptType.call, F, K, σ, r, T =>
      if K = 0 then Real.exp (-(r * T)) * F
      else Real.exp (-(r * T)) * (F * normCdf (blackD1 F K σ T) - K * normCdf (blackD2 F K σ T))
  | OptType.put, F, K, σ, r, T =>
      if K = 0 then 0
      else Real.exp (-(r * T)) * (K * normCdf (-(blackD2 F K σ T)) - F * normCdf (-(blackD1 F K σ T)))

/-- Modelled from the spec: closed-form Black delta. -/
noncomputable def blackDelta : OptType → ℝ → ℝ → ℝ → ℝ → ℝ → ℝ
  | OptType.call, F, K, σ, r, T => Real.exp (-(r * T)) * normCdf (blackD1 F K σ T)
  | OptType.put, F, K, σ, r, T => Real.exp (-(r * T)) * (normCdf (blackD1 F K σ T) - 1)

/-- Modelled from the spec: closed-form Black gamma. -/
noncomputable def blackGamma (F K σ r T : ℝ) : ℝ :=
  Real.exp (-(r * T)) * normPdf (blackD1 F K σ T) / (F * σ * Real.sqrt T)

/-- Modelled from the spec: closed-form Black vega. -/
noncomputable def blackVega (F K σ r T : ℝ) : ℝ :=
  Real.exp (-(r * T)) * F * normPdf (blackD1 F K σ T) * Real.sqrt T

/-- Modelled from the spec: closed-form Black theta. -/
noncomputable def blackTheta : OptType → ℝ → ℝ → ℝ → ℝ → ℝ → ℝ
  | OptType.call, F, K, σ, r, T =>
      -(Real.exp (-(r * T)) * F * normPdf (blackD1 F K σ T) * σ) / (2 * Real.sqrt T)
        + r * blackNPV OptType.call F K σ r T
  | OptType.put, F, K, σ, r, T =>
      -(Real.exp (-(r * T)) * F * normPdf (blackD1 F K σ T) * σ) / (2 * Real.sqrt T)
        + r * blackNPV OptType.put F K σ r T

/-- Modelled from the spec: closed-form Black rho (pure discounting
sensitivity of the Black-76 value). -/
noncomputable def blackRho (ot : OptType) (F K σ r T : ℝ) : ℝ :=
  -T * blackNPV ot F K σ r T

/-- The single European result column (label, six greek rows) produced by the
`AnalyticEuropeanEngine` branch. -/
noncomputable def europeanCol (ot : OptType) (label : String) (F K σ r T : ℝ) : Col :=
  (label,
    greekRows (blackNPV ot F K σ r T) (blackDelta ot F K σ r T) (blackGamma F K σ r T)
      (blackTheta ot F K σ r T) (blackVega F K σ r T) (blackRho ot F K σ r T))

/-! ### The Cox-Ross-Rubinstein binomial engine

Modelled from the spec (§4.1): `ql.BinomialCRRVanillaEngine` discretizes
time-to-expiry into `steps` CRR steps (`u = exp(σ√Δt)`, `d = 1/u`); under a
`BlackProcess` the dividend yield equals the risk-free rate, so the per-step
log-drift is `-σ²/2` and the up probability `1/2 + (1/2)·drift·Δt/(σ√Δt)` does
not depend on the rate; each step discounts by `exp(-r·Δt)`; American exercise
is checked at every node. -/

/-- The CRR up-move probability `1/2 + (1/2)·(driftPerStep)/(σ√Δt)` with the
`BlackProcess` log-drift `-σ²/2` per unit time. -/
noncomputable def crrPu (σ dt x : ℝ) : ℝ :=
  1 / 2 + (1 / 2) * ((-(σ ^ 2) / 2) * dt) / x

/-- Backward induction value of the (American-exercise) binomial tree with
`n` remaining steps at asset level `s`. -/
noncomputable def crrVal (ot : OptType) (K u d pu disc : ℝ) : ℕ → ℝ → ℝ
  | 0, s => payoff ot K s
  | n + 1, s =>
      max (payoff ot K s)
        (disc * (pu * crrVal ot K u d pu disc n (s * u) + (1 - pu) * crrVal ot K u d pu disc n (s * d)))

/-- Root value of the CRR tree for forward `F`, strike `K`, volatility `σ`,
zero rate `r`, time to expiry `T` and `steps` steps. -/
noncomputable def crrNPV (ot : OptType) (F K σ r T : ℝ) (steps : ℕ) : ℝ :=
  let dt := T / (steps : ℝ)
  let x := σ * Real.sqrt dt
  let pu := crrPu σ dt x
  crrVal ot K (Real.exp x) (Real.exp (-x)) pu (Real.exp (-(r * dt))) steps F

/-- Modelled from the spec: tree delta, read directly from the first tree
level. -/
noncomputable def crrDelta (ot : OptType) (F K σ r T : ℝ) (steps : ℕ) : ℝ :=
  let dt := T / (steps : ℝ)
  let x := σ * Real.sqrt dt
  let pu := crrPu σ dt x
  (crrVal ot K (Real.exp x) (Real.exp (-x)) pu (Real.exp (-(r * dt))) (steps - 1) (F * Real.exp x)
      - crrVal ot K (Real.exp x) (Real.exp (-x)) pu (Real.exp (-(r * dt))) (steps - 1) (F * Real.exp (-x)))
    / (F * Real.exp x - F * Real.exp (-x))

/-- Modelled from the spec: tree gamma, read from the second tree level. -/
noncomputable def crrGamma (ot : OptType) (F K σ r T : ℝ) (steps : ℕ) : ℝ :=
  let dt := T / (steps : ℝ)
  let x := σ * Real.sqrt dt
  let pu := crrPu σ dt x
  let u := Real.exp x
  let d := Real.exp (-x)
  let vuu := crrVal ot K u d pu (Real.exp (-(r * dt))) (steps - 2) (F * u * u)
  let vud := crrVal ot K u d pu (Real.exp (-(r * dt))) (steps - 2) (F * u * d)
  let vdd := crrVal ot K u d pu (Real.exp (-(r * dt))) (steps - 2) (F * d * d)
  ((vuu - vud) / (F * u * u - F) - (vud - vdd) / (F - F * d * d)) / ((F * u * u - F * d * d) / 2)

/-- Modelled from the spec: tree theta, read from the re-centred node two
levels in. -/
noncomputable def crrTheta (ot : OptType) (F K σ r T : ℝ) (steps : ℕ) : ℝ :=
  let dt := T / (steps : ℝ)
  let x := σ * Real.sqrt dt
  let pu := crrPu σ dt x
  (crrVal ot K (Real.exp x) (Real.exp (-x)) pu (Real.exp (-(r * dt))) (steps - 2) F
      - crrVal ot K (Real.exp x) (Real.exp (-x)) pu (Real.exp (-(r * dt))) steps F)
    / (2 * dt)

/-! ### Processes, engines and the finite-difference estimators -/

/-- A `ql.BlackProcess`: state value (the forward quote), a zero-rate curve
queried by date, and a volatility surface queried by (year fraction, strike). -/
structure QlProcess where
  x0 : ℝ
  rate : ℝ → ℝ
  vol : ℝ → ℝ → ℝ

/-- The immutable terms of a `ql.VanillaOption` (payoff and exercise). -/
structure QlOption where
  ot : OptType
  strike : ℝ
  expiry : ℝ

/-- A `ql.BinomialCRRVanillaEngine`: the process it prices with and its step
count.  `option.setPricingEngine` replaces the engine attached to an option;
the attached engine is threaded through the embedding as explicit state. -/
structure Engine where
  process : QlProcess
  steps : ℕ

/-- `option.NPV()` under the currently attached binomial engine: the engine
extracts the flat volatility at (maturity, strike) and the zero rate at
maturity from its process and rolls the CRR tree back. -/
noncomputable def engineNPV (evalDate : ℝ) (opt : QlOption) (e : Engine) : ℝ :=
  crrNPV opt.ot e.process.x0 opt.strike (e.process.vol (opt.expiry - evalDate) opt.strike)
    (e.process.rate opt.expiry) (opt.expiry - evalDate) e.steps

/-- `option.delta()` under the currently attached binomial engine. -/
noncomputable def engineDelta (evalDate : ℝ) (opt : QlOption) (e : Engine) : ℝ :=
  crrDelta opt.ot e.process.x0 opt.strike (e.process.vol (opt.expiry - evalDate) opt.strike)
    (e.process.rate opt.expiry) (opt.expiry - evalDate) e.steps

/-- `option.gamma()` under the currently attached binomial engine. -/
noncomputable def engineGamma (evalDate : ℝ) (opt : QlOption) (e : Engine) : ℝ :=
  crrGamma opt.ot e.process.x0 opt.strike (e.process.vol (opt.expiry - evalDate) opt.strike)
    (e.process.rate opt.expiry) (opt.expiry - evalDate) e.steps

/-- `option.theta()` under the currently attached binomial engine. -/
noncomputable def engineTheta (evalDate : ℝ) (opt : QlOption) (e : Engine) : ℝ :=
  crrTheta opt.ot e.process.x0 opt.strike (e.process.vol (opt.expiry - evalDate) opt.strike)
    (e.process.rate opt.expiry) (opt.expiry - evalDate) e.steps

/-- The keyword default `bump=0.01` of `estimate_vega` (qloptions.py line 251). -/
noncomputable def vegaBumpDefault : ℝ := 1 / 100

/-- The keyword default `bump=0.001` of `estimate_rho` (qloptions.py line 283). -/
noncomputable def rhoBumpDefault : ℝ := 1 / 1000

/-- qloptions.py lines 251-280, `estimate_vega`: central finite difference in
the volatility.  Both re-pricings rebuild the process with the surface value
at (expiry, strike) shifted by `±bump` as a flat volatility and attach a fresh
engine with the same `steps` to the *same* option; the last engine set (the
down-bumped one) stays attached, which the second component records.  A zero
bump raises `ZeroDivisionError` (`none`). -/
noncomputable def estimate_vega (evalDate : ℝ) (opt : QlOption) (process : QlProcess)
    (volatility : ℝ → ℝ → ℝ) (strike_price expiry_date : ℝ) (steps : ℕ) (bump : ℝ) :
    Option ℝ × Engine :=
  let v0 := volatility (expiry_date - evalDate) strike_price
  let process_up : QlProcess := ⟨process.x0, process.rate, fun _ _ => v0 + bump⟩
  let price_up := engineNPV evalDate opt ⟨process_up, steps⟩
  let process_down : QlProcess := ⟨process.x0, process.rate, fun _ _ => v0 - bump⟩
  let price_down := engineNPV evalDate opt ⟨process_down, steps⟩
  (if bump = 0 then none else some ((price_up - price_down) / (2 * bump)), ⟨process_down, steps⟩)

/-- qloptions.py lines 283-310, `estimate_rho`: central finite difference in
the zero rate.  Both re-pricings rebuild the process with a flat curve at the
base zero rate shifted by `±bump` and the *original* volatility surface, and
attach a fresh engine with the same `steps` to the same option; the last
engine set (the down-bumped one) stays attached. -/
noncomputable def estimate_rho (evalDate : ℝ) (opt : QlOption) (process : QlProcess)
    (yield_curve : ℝ → ℝ) (volatility : ℝ → ℝ → ℝ) (expiry_date : ℝ) (steps : ℕ) (bump : ℝ) :
    Option ℝ × Engine :=
  let base_rate := yield_curve expiry_date
  let process_up : QlProcess := ⟨process.x0, fun _ => base_rate + bump, volatility⟩
  let price_up := engineNPV evalDate opt ⟨process_up, steps⟩
  let process_down : QlProcess := ⟨process.x0, fun _ => base_rate - bump, volatility⟩
  let price_down := engineNPV evalDate opt ⟨process_down, steps⟩
  (if bump = 0 then none else some ((price_up - price_down) / (2 * bump)), ⟨process_down, steps⟩)

/-! ### The pricing entry points -/

/-- qloptions.py lines 16-55, `comdty_vanilla_option`.  The `BlackProcess` is
built unconditionally before any branch; no input validation exists.  The
`none` results model the external library's own failure points: `int(None)`
for missing steps on the American branch, the engine's minimum-step
requirement, a non-positive time to expiry, and `blackFormula`'s refusal of a
negative strike; everything else returns a full frame.  On the American
branch, `estimate_vega` then `estimate_rho` are run first and the option's
engine is left as the rate-down-bumped engine `estimate_rho` set last, so the
reported price/delta/gamma/theta are computed under that engine. -/
noncomputable def comdty_vanilla_option (evaluation_date expiry_date forward_price strike_price : ℝ)
    (option_type exercise_type : String) (steps : Option ℤ)
    (volatility : ℝ → ℝ → ℝ) (yield_curve : ℝ → ℝ) : Option Frame :=
  let T := expiry_date - evaluation_date
  let ot := optionTypeOf option_type
  if strUpper exercise_type = "AMERICAN" then
    match steps with
    | none => none
    | some n =>
      if n < 2 then none
      else if T ≤ 0 then none
      else
        let process : QlProcess := ⟨forward_price, yield_curve, volatility⟩
        let opt : QlOption := ⟨ot, strike_price, expiry_date⟩
        let vres := estimate_vega evaluation_date opt process volatility strike_price expiry_date
          n.toNat vegaBumpDefault
        let rres := estimate_rho evaluation_date opt process yield_curve volatility expiry_date
          n.toNat rhoBumpDefault
        match vres.1, rres.1 with
        | some vg, some rh =>
            some [(option_type,
              greekRows (engineNPV evaluation_date opt rres.2) (engineDelta evaluation_date opt rres.2)
                (engineGamma evaluation_date opt rres.2) (engineTheta evaluation_date opt rres.2) vg rh)]
        | _, _ => none
  else
    if T ≤ 0 then none
    else if strike_price < 0 then none
    else
      some [europeanCol ot option_type forward_price strike_price
        (volatility T strike_price) (yield_curve expiry_date) T]

/-- Float boundary of `comdty_vanilla_option`: a non-finite strike (`none`,
i.e. NaN or `±inf`) reaching the pricer fails the volatility surface's
strike-domain check (NaN comparisons are false and an infinite strike exceeds
the surface's maximum strike), so no result is produced. -/
noncomputable def comdty_vanilla_option_flt (evaluation_date expiry_date forward_price : ℝ)
    (option_type exercise_type : String) (steps : Option ℤ)
    (volatility : ℝ → ℝ → ℝ) (yield_curve : ℝ → ℝ) (strike_price : Option ℝ) : Option Frame :=
  match strike_price with
  | none => none
  | some k =>
      comdty_vanilla_option evaluation_date expiry_date forward_price k option_type exercise_type
        steps volatility yield_curve

/-- IEEE evaluation of qloptions.py line 85,
`forward / exp(vol·√T·d1 - vol²·T/2)`, when `d1` is the ppf float: a finite
d1 gives a finite strike; a `±inf` d1 whose sign combined with `vol·√T` sends
the exponent to `+inf` gives the finite strike `forward/inf = 0.0`, while the
other sign cases yield a non-finite strike (`none`, covering
`forward/0 = ±inf` and the `0·inf` NaN); a NaN d1 propagates as NaN. -/
noncomputable def delta_strike_of_ppf (forward_price volatility_atm years_to_maturity : ℝ)
    (d1 : ScipyPpf) : Option ℝ :=
  match d1 with
  | ScipyPpf.fin d =>
      some (forward_price /
        Real.exp (volatility_atm * Real.sqrt years_to_maturity * d
          - (volatility_atm ^ 2 / 2) * years_to_maturity))
  | ScipyPpf.posInf =>
      if 0 < volatility_atm * Real.sqrt years_to_maturity then some 0 else none
  | ScipyPpf.negInf =>
      if volatility_atm * Real.sqrt years_to_maturity < 0 then some 0 else none
  | ScipyPpf.nan => none

/-- qloptions.py lines 72-85: the strike derived from a target delta, as the
float the source computes (`none` = non-finite). -/
noncomputable def comdty_vanilla_option_delta_strike (evaluation_date expiry_date forward_price delta : ℝ)
    (option_type : String) (volatility : ℝ → ℝ → ℝ) (yield_curve : ℝ → ℝ) : Option ℝ :=
  let years_to_maturity := expiry_date - evaluation_date
  let riskfree_rate := yield_curve expiry_date
  let volatility_atm := volatility years_to_maturity forward_price
  let d1 :=
    if strUpper option_type = "CALL" then
      scipy_norm_ppf (delta * Real.exp (riskfree_rate * years_to_maturity))
    else
      scipy_norm_ppf (delta * Real.exp (riskfree_rate * years_to_maturity) + 1)
  delta_strike_of_ppf forward_price volatility_atm years_to_maturity d1

/-- qloptions.py lines 58-93, `comdty_vanilla_option_delta`: invert the Black
d1 relation for the strike, price a EUROPEAN option there (`steps=None`), and
stack the audit rows below the option frame (`pd.concat(..., axis=0)`).  When
a `±inf` d1 still produces the finite strike 0.0, the source's audit frame
carries that non-finite float in its d1 row; a real-valued row cannot hold
it, so the embedding omits the d1 row in that branch (no claim inspects it). -/
noncomputable def comdty_vanilla_option_delta (evaluation_date expiry_date forward_price delta : ℝ)
    (option_type : String) (volatility : ℝ → ℝ → ℝ) (yield_curve : ℝ → ℝ) : Option Frame :=
  let years_to_maturity := expiry_date - evaluation_date
  let riskfree_rate := yield_curve expiry_date
  let volatility_atm := volatility years_to_maturity forward_price
  let d1 :=
    if strUpper option_type = "CALL" then
      scipy_norm_ppf (delta * Real.exp (riskfree_rate * years_to_maturity))
    else
      scipy_norm_ppf (delta * Real.exp (riskfree_rate * years_to_maturity) + 1)
  let strike_price := delta_strike_of_ppf forward_price volatility_atm years_to_maturity d1
  match comdty_vanilla_option_flt evaluation_date expiry_date forward_price option_type "EUROPEAN"
      none volatility yield_curve strike_price with
  | none => none
  | some option_frame =>
      match d1, strike_price with
      | ScipyPpf.fin d, some k =>
          some (option_frame.map fun c =>
            (c.1, c.2 ++ [("d1", d), ("riskfree_rate", riskfree_rate),
              ("volatility_atm", volatility_atm), ("years_to_maturity", years_to_maturity),
              ("strike_price", k)]))
      | _, some k =>
          some (option_frame.map fun c =>
            (c.1, c.2 ++ [("riskfree_rate", riskfree_rate),
              ("volatility_atm", volatility_atm), ("years_to_maturity", years_to_maturity),
              ("strike_price", k)]))
      | _, none => none

/-- qloptions.py lines 96-118, `comdty_vanilla_option_spread`: price the long
and the short leg, relabel their columns `_LONG`/`_SHORT`, and append the
positional difference of the leg values as the `_SPREAD` column. -/
noncomputable def comdty_vanilla_option_spread (evaluation_date expiry_date forward_price
    strike_price_long strike_price_short : ℝ) (option_type exercise_type : String)
    (steps : Option ℤ) (volatility : ℝ → ℝ → ℝ) (yield_curve : ℝ → ℝ) : Option Frame :=
  match
    comdty_vanilla_option evaluation_date expiry_date forward_price strike_price_long option_type
      exercise_type steps volatility yield_curve,
    comdty_vanilla_option evaluation_date expiry_date forward_price strike_price_short option_type
      exercise_type steps volatility yield_curve with
  | some option_price_long, some option_price_short =>
      let vals := List.zipWith (fun a b => a - b) (colValues option_price_long)
        (colValues option_price_short)
      some (option_price_long.map (fun c => (c.1 ++ "_LONG", c.2))
        ++ option_price_short.map (fun c => (c.1 ++ "_SHORT", c.2))
        ++ [(option_type ++ "_SPREAD",
              (["price", "delta", "gamma", "theta", "vega", "rho"]).zip vals)])
  | _, _ => none

/-- qloptions.py lines 121-140, `comdty_vanilla_option_collar`: a short call
and a long put; the `COLLAR` column is put minus call, positionally. -/
noncomputable def comdty_vanilla_option_collar (evaluation_date expiry_date forward_price
    strike_price_call_short strike_price_put_long : ℝ) (exercise_type : String)
    (steps : Option ℤ) (volatility : ℝ → ℝ → ℝ) (yield_curve : ℝ → ℝ) : Option Frame :=
  match
    comdty_vanilla_option evaluation_date expiry_date forward_price strike_price_call_short "CALL"
      exercise_type steps volatility yield_curve,
    comdty_vanilla_option evaluation_date expiry_date forward_price strike_price_put_long "PUT"
      exercise_type steps volatility yield_curve with
  | some call_price, some put_price =>
      let vals := List.zipWith (fun a b => a - b) (colValues put_price) (colValues call_price)
      some (call_price ++ put_price
        ++ [("COLLAR", (["price", "delta", "gamma", "theta", "vega", "rho"]).zip vals)])
  | _, _ => none

/-- qloptions.py lines 143-168, `comdty_vanilla_option_butterfly`: three legs
relabelled `_LOW`/`_MIDDLE`/`_HIGH`; the `_BUTTERFLY` column is
low − 2·middle + high, positionally. -/
noncomputable def comdty_vanilla_option_butterfly (evaluation_date expiry_date forward_price
    strike_price_low_long strike_price_middle_short strike_price_high_long : ℝ)
    (option_type exercise_type : String) (steps : Option ℤ)
    (volatility : ℝ → ℝ → ℝ) (yield_curve : ℝ → ℝ) : Option Frame :=
  match
    comdty_vanilla_option evaluation_date expiry_date forward_price strike_price_low_long
      option_type exercise_type steps volatility yield_curve,
    comdty_vanilla_option evaluation_date expiry_date forward_price strike_price_middle_short
      option_type exercise_type steps volatility yield_curve,
    comdty_vanilla_option evaluation_date expiry_date forward_price strike_price_high_long
      option_type exercise_type steps volatility yield_curve with
  | some option_price_low, some option_price_middle, some option_price_high =>
      let vals := List.zipWith (fun a b => a + b)
        (List.zipWith (fun a b => a - 2 * b) (colValues option_price_low)
          (colValues option_price_middle))
        (colValues option_price_high)
      some (option_price_low.map (fun c => (c.1 ++ "_LOW", c.2))
        ++ option_price_middle.map (fun c => (c.1 ++ "_MIDDLE", c.2))
        ++ option_price_high.map (fun c => (c.1 ++ "_HIGH", c.2))
        ++ [(option_type ++ "_BUTTERFLY",
              (["price", "delta", "gamma", "theta", "vega", "rho"]).zip vals)])
  | _, _, _ => none

/-- A calendar-spread result column; rows are `Option ℝ` so that the NaN the
source produces from `np.mean([])` is representable (`none`). -/
abbrev CalCol := String × List (String × Option ℝ)

/-- qloptions.py lines 171-248, `comdty_vanilla_option_calendar_spread`.  The
correlated two-factor Monte Carlo path generator is external and unseeded; the
terminal value pair each path draws is supplied by the oracle `draws`
(`correlation` only shapes the distribution of those draws and is carried for
fidelity).  The discount rate and year fraction are taken to the nearer of the
two expiries; `np.mean` of the empty payoff list (`paths = 0`) is NaN. -/
noncomputable def comdty_vanilla_option_calendar_spread (evaluation_date expiry_date_long
    expiry_date_short forward_price strike_price : ℝ) (option_type : String)
    (correlation : ℝ) (volatility : ℝ → ℝ → ℝ) (yield_curve : ℝ → ℝ)
    (paths : ℕ) (draws : ℕ → ℝ × ℝ) : CalCol :=
  let volatility_long := volatility (expiry_date_long - evaluation_date) forward_price
  let volatility_short := volatility (expiry_date_short - evaluation_date) forward_price
  let riskfree_rate_long := yield_curve expiry_date_long
  let riskfree_rate_short := yield_curve expiry_date_short
  let expiry_date_min := min expiry_date_long expiry_date_short
  let risk_free_rate :=
    if expiry_date_min = expiry_date_long then riskfree_rate_long else riskfree_rate_short
  let years_to_maturity := expiry_date_min - evaluation_date
  let contract_long := (List.range paths).map fun i => (draws i).1
  let contract_short := (List.range paths).map fun i => (draws i).2
  let spread := List.zipWith (fun a b => a - b) contract_long contract_short
  let payoff : Option ℝ :=
    if paths = 0 then none
    else some
      ((if strUpper option_type = "CALL" then
          (spread.map fun s => max (s - strike_price) 0).sum
        else
          (spread.map fun s => max (strike_price - s) 0).sum) / (paths : ℝ))
  let price := payoff.map fun p => p * Real.exp (-(risk_free_rate * years_to_maturity))
  (option_type,
    [("price", price), ("payoff", payoff), ("risk_free_rate_long", some riskfree_rate_long),
      ("risk_free_rate_short", some riskfree_rate_short), ("volatility_long", some volatility_long),
      ("volatility_short", some volatility_short)])

/-! ### Helper lemmas -/

/-- Full expansion of the two-step American tree rollback. -/
lemma crrVal_call_two (K u d pu disc s : ℝ) :
    crrVal OptType.call K u d pu disc 2 s =
      max (max (s - K) 0)
        (disc * (pu * max (max (s * u - K) 0)
            (disc * (pu * max (s * u * u - K) 0 + (1 - pu) * max (s * u * d - K) 0))
          + (1 - pu) * max (max (s * d - K) 0)
            (disc * (pu * max (s * d * u - K) 0 + (1 - pu) * max (s * d * d - K) 0)))) := rfl

set_option maxHeartbeats 2000000 in
/-- Closed form of the two-step at-the-money American call tree: for a small
step volatility and a rate of at least 0.9, the up node exercises early, so
the root value is `exp(-r·Δt) · pu · (100u - 100)` and depends on the rate
only through the one-step discount factor. -/
lemma crr_call_atm_two_step (σ r : ℝ) (hσ : 0 < σ)
    (hx : σ * Real.sqrt (1 / 2) ≤ 3 / 20) (hr : 9 / 10 ≤ r) :
    crrNPV OptType.call 100 100 σ r 1 2 =
      Real.exp (-(r * (1 / 2))) *
        ((1 / 2 - σ * Real.sqrt (1 / 2) / 4) * (100 * Real.exp (σ * Real.sqrt (1 / 2)) - 100)) := by
  simp only [crrNPV, Nat.cast_ofNat]
  set x := σ * Real.sqrt (1 / 2) with hxdef
  have hxpos : 0 < x := mul_pos hσ (Real.sqrt_pos.mpr (by norm_num))
  have hu1 : 1 < Real.exp x := Real.one_lt_exp_iff.mpr hxpos
  have hd1 : Real.exp (-x) < 1 := Real.exp_lt_one_iff.mpr (by linarith)
  have hdpos : 0 < Real.exp (-x) := Real.exp_pos _
  have hupos : 0 < Real.exp x := Real.exp_pos _
  have hdiscpos : 0 < Real.exp (-(r * (1 / 2))) := Real.exp_pos _
  have hud : Real.exp x * Real.exp (-x) = 1 := by
    rw [← Real.exp_add]
    simp
  have hx2 : x ^ 2 = σ ^ 2 * (1 / 2) := by
    rw [hxdef, mul_pow, Real.sq_sqrt (by norm_num : (0:ℝ) ≤ 1/2)]
  have hpu : crrPu σ (1 / 2) x = 1 / 2 - x / 4 := by
    have hσ2 : σ ^ 2 = 2 * x ^ 2 := by rw [hx2]; ring
    rw [crrPu, hσ2]
    field_simp
    ring
  have hd_ge : 1 - x ≤ Real.exp (-x) := by
    have := Real.add_one_le_exp (-x)
    linarith
  have hu_le : Real.exp x ≤ 20 / 17 := by nlinarith
  have hdisc_le : Real.exp (-(r * (1 / 2))) ≤ 20 / 29 := by
    have h1 : Real.exp (-(r * (1 / 2))) ≤ Real.exp (-(9 / 20)) :=
      Real.exp_le_exp.mpr (by linarith)
    have h2 : (29 : ℝ) / 20 ≤ Real.exp (9 / 20) := by
      have := Real.add_one_le_exp ((9 : ℝ) / 20)
      linarith
    have hmul : Real.exp (-(9 / 20) : ℝ) * Real.exp ((9 : ℝ) / 20) = 1 := by
      rw [← Real.exp_add]
      norm_num
    nlinarith [Real.exp_pos (-(9 / 20) : ℝ)]
  rw [crrVal_call_two, hpu]
  set u := Real.exp x with hudef
  set d := Real.exp (-x) with hddef
  set disc := Real.exp (-(r * (1 / 2))) with hdiscdef
  set p := 1 / 2 - x / 4 with hpdef
  have hppos : 0 < p := by rw [hpdef]; nlinarith
  have hple : p ≤ 1 / 2 := by rw [hpdef]; linarith
  clear_value x u d disc p
  have h100ud : (100:ℝ) * u * d = 100 := by rw [mul_assoc, hud, mul_one]
  have h100du : (100:ℝ) * d * u = 100 := by rw [mul_assoc, mul_comm d u, hud, mul_one]
  rw [h100ud, h100du]
  have h0 : max ((100:ℝ) - 100) 0 = 0 := by norm_num
  rw [h0]
  have huu : max ((100:ℝ) * u * u - 100) 0 = 100 * u * u - 100 := max_eq_left (by nlinarith)
  have hdd : max ((100:ℝ) * d * d - 100) 0 = 0 := max_eq_right (by nlinarith)
  have hup : max ((100:ℝ) * u - 100) 0 = 100 * u - 100 := max_eq_left (by nlinarith)
  have hdn : max ((100:ℝ) * d - 100) 0 = 0 := max_eq_right (by nlinarith)
  rw [huu, hdd, hup, hdn]
  have hdownnode : disc * (p * 0 + (1 - p) * 0) = 0 := by ring
  rw [hdownnode, max_self]
  have hq : disc * p ≤ 10 / 29 := by nlinarith
  have hq0 : 0 ≤ disc * p := mul_nonneg hdiscpos.le hppos.le
  have hqu : disc * p * (u + 1) ≤ 370 / 493 := by nlinarith
  have hkey : (0:ℝ) ≤ 1 - disc * p * (u + 1) := by linarith
  have hupnode :
      max (100 * u - 100) (disc * (p * (100 * u * u - 100) + (1 - p) * 0)) = 100 * u - 100 := by
    apply max_eq_left
    nlinarith [mul_nonneg (by linarith : (0:ℝ) ≤ u - 1) hkey]
  rw [hupnode]
  have hroot :
      max 0 (disc * (p * (100 * u - 100) + (1 - p) * 0)) =
        disc * (p * (100 * u - 100) + (1 - p) * 0) := by
    apply max_eq_right
    nlinarith [mul_nonneg hdiscpos.le (mul_nonneg hppos.le (by nlinarith : (0:ℝ) ≤ 100 * u - 100))]
  rw [hroot]
  ring

/-- Any successful result of the single-option pricer is one column labelled
by the caller's `option_type` string holding exactly the six greek rows. -/
lemma comdty_vanilla_option_shape (evaluation_date expiry_date forward_price strike_price : ℝ)
    (option_type exercise_type : String) (steps : Option ℤ)
    (volatility : ℝ → ℝ → ℝ) (yield_curve : ℝ → ℝ) (fr : Frame)
    (h : comdty_vanilla_option evaluation_date expiry_date forward_price strike_price option_type
      exercise_type steps volatility yield_curve = some fr) :
    ∃ p d g t v r, fr = [(option_type, greekRows p d g t v r)] := by
  simp only [comdty_vanilla_option] at h
  split at h
  · split at h
    · exact absurd h (by simp)
    · split at h
      · exact absurd h (by simp)
      · split at h
        · exact absurd h (by simp)
        · split at h
          · simp only [Option.some.injEq] at h
            exact ⟨_, _, _, _, _, _, h.symm⟩
          · exact absurd h (by simp)
  · split at h
    · exact absurd h (by simp)
    · split at h
      · exact absurd h (by simp)
      · simp only [Option.some.injEq, europeanCol] at h
        exact ⟨_, _, _, _, _, _, h.symm⟩

/-! ### C1 -/

/-- C1: for an AMERICAN pricing call the reported price is NOT that of the CRR
tree built from the caller's unbumped inputs: the finite-difference rho
estimation leaves the option attached to the rate-down-bumped engine, so the
reported price equals the tree price at `r - 0.001`, which differs from the
tree price at the caller's rate `r` at the concrete input below (forward 100,
strike 100, call, expiry one year out, flat vol 0.2, flat zero rate 1, two
lattice steps). -/
theorem c1_american_base_valuation_is_rate_bumped :
    (comdty_vanilla_option 0 1 100 100 "CALL" "AMERICAN" (some 2) (fun _ _ => (1/5 : ℝ))
        (fun _ => (1 : ℝ))).map framePrice
      = some (some (crrNPV OptType.call 100 100 (1/5) (1 - 1/1000) 1 2))
    ∧ crrNPV OptType.call 100 100 (1/5) (1 - 1/1000) 1 2
        ≠ crrNPV OptType.call 100 100 (1/5) 1 1 2 := by
  constructor
  · simp only [comdty_vanilla_option, estimate_vega, estimate_rho, engineNPV]
    norm_num [(by decide : strUpper "AMERICAN" = "AMERICAN"),
      (by decide : optionTypeOf "CALL" = OptType.call),
      vegaBumpDefault, rhoBumpDefault, framePrice, greekRows, List.lookup,
      (by decide : (2:ℤ).toNat = 2)]
  · have hs : Real.sqrt (1/2 : ℝ) ≤ 3/4 := by
      have h1 : Real.sqrt (1/2 : ℝ) ≤ Real.sqrt (9/16) := Real.sqrt_le_sqrt (by norm_num)
      have h2 : Real.sqrt ((9:ℝ)/16) = 3/4 := by
        rw [show ((9:ℝ)/16) = (3/4)^2 by norm_num, Real.sqrt_sq (by norm_num : (0:ℝ) ≤ 3/4)]
      linarith
    have hx : (1/5 : ℝ) * Real.sqrt (1/2) ≤ 3/20 := by
      nlinarith [Real.sqrt_nonneg (1/2 : ℝ)]
    have ha := crr_call_atm_two_step (1/5) (1 - 1/1000) (by norm_num) hx (by norm_num)
    have hb := crr_call_atm_two_step (1/5) 1 (by norm_num) hx (by norm_num)
    rw [ha, hb]
    intro heq
    have hxpos : 0 < (1/5 : ℝ) * Real.sqrt (1/2) :=
      mul_pos (by norm_num) (Real.sqrt_pos.mpr (by norm_num))
    have hC : 0 < (1 / 2 - (1/5 : ℝ) * Real.sqrt (1 / 2) / 4) *
        (100 * Real.exp ((1/5 : ℝ) * Real.sqrt (1 / 2)) - 100) := by
      have h1 : 1 < Real.exp ((1/5 : ℝ) * Real.sqrt (1 / 2)) := Real.one_lt_exp_iff.mpr hxpos
      have h2 : 0 < 1 / 2 - (1/5 : ℝ) * Real.sqrt (1 / 2) / 4 := by nlinarith
      nlinarith
    have heq2 : Real.exp (-((1 - 1/1000 : ℝ) * (1/2))) = Real.exp (-((1:ℝ) * (1/2))) :=
      mul_right_cancel₀ (ne_of_gt hC) heq
    have h3 := Real.exp_eq_exp.mp heq2
    norm_num at h3

/-! ### C10 -/

/-- The single-option pricer's frames always carry the fixed greek row order. -/
lemma vanilla_ordered (evaluation_date expiry_date forward_price strike_price : ℝ)
    (option_type exercise_type : String) (steps : Option ℤ)
    (volatility : ℝ → ℝ → ℝ) (yield_curve : ℝ → ℝ) :
    allGreekOrdered (comdty_vanilla_option evaluation_date expiry_date forward_price strike_price
      option_type exercise_type steps volatility yield_curve) := by
  rcases h : comdty_vanilla_option evaluation_date expiry_date forward_price strike_price
      option_type exercise_type steps volatility yield_curve with _ | fr
  · simp [allGreekOrdered]
  · obtain ⟨p, d, g, t, v, r, hfr⟩ := comdty_vanilla_option_shape _ _ _ _ _ _ _ _ _ _ h
    subst hfr
    simp [allGreekOrdered, greekRows, greekOrder]

/-- C10: every pricing operation (single option, spread, collar, butterfly)
returns its greek rows in the fixed order price, delta, gamma, theta, vega,
rho, identically in every leg column and the structure column. -/
theorem c10_greek_row_order_fixed (evaluation_date expiry_date forward_price k1 k2 k3 : ℝ)
    (option_type exercise_type : String) (steps : Option ℤ)
    (volatility : ℝ → ℝ → ℝ) (yield_curve : ℝ → ℝ) :
    allGreekOrdered (comdty_vanilla_option evaluation_date expiry_date forward_price k1
      option_type exercise_type steps volatility yield_curve)
    ∧ allGreekOrdered (comdty_vanilla_option_spread evaluation_date expiry_date forward_price k1 k2
      option_type exercise_type steps volatility yield_curve)
    ∧ allGreekOrdered (comdty_vanilla_option_collar evaluation_date expiry_date forward_price k1 k2
      exercise_type steps volatility yield_curve)
    ∧ allGreekOrdered (comdty_vanilla_option_butterfly evaluation_date expiry_date forward_price
      k1 k2 k3 option_type exercise_type steps volatility yield_curve) := by
  refine ⟨vanilla_ordered _ _ _ _ _ _ _ _ _, ?_, ?_, ?_⟩
  · rcases hL : comdty_vanilla_option evaluation_date expiry_date forward_price k1
        option_type exercise_type steps volatility yield_curve with _ | frL
    · simp [comdty_vanilla_option_spread, hL, allGreekOrdered]
    · rcases hS : comdty_vanilla_option evaluation_date expiry_date forward_price k2
          option_type exercise_type steps volatility yield_curve with _ | frS
      · simp [comdty_vanilla_option_spread, hL, hS, allGreekOrdered]
      · obtain ⟨p1, d1, g1, t1, v1, r1, h1⟩ := comdty_vanilla_option_shape _ _ _ _ _ _ _ _ _ _ hL
        obtain ⟨p2, d2, g2, t2, v2, r2, h2⟩ := comdty_vanilla_option_shape _ _ _ _ _ _ _ _ _ _ hS
        subst h1
        subst h2
        simp [comdty_vanilla_option_spread, hL, hS, allGreekOrdered, greekRows, greekOrder,
          colValues]
  · rcases hL : comdty_vanilla_option evaluation_date expiry_date forward_price k1
        "CALL" exercise_type steps volatility yield_curve with _ | frL
    · simp [comdty_vanilla_option_collar, hL, allGreekOrdered]
    · rcases hS : comdty_vanilla_option evaluation_date expiry_date forward_price k2
          "PUT" exercise_type steps volatility yield_curve with _ | frS
      · simp [comdty_vanilla_option_collar, hL, hS, allGreekOrdered]
      · obtain ⟨p1, d1, g1, t1, v1, r1, h1⟩ := comdty_vanilla_option_shape _ _ _ _ _ _ _ _ _ _ hL
        obtain ⟨p2, d2, g2, t2, v2, r2, h2⟩ := comdty_vanilla_option_shape _ _ _ _ _ _ _ _ _ _ hS
        subst h1
        subst h2
        simp [comdty_vanilla_option_collar, hL, hS, allGreekOrdered, greekRows, greekOrder,
          colValues]
  · rcases hL : comdty_vanilla_option evaluation_date expiry_date forward_price k1
        option_type exercise_type steps volatility yield_curve with _ | frL
    · simp [comdty_vanilla_option_butterfly, hL, allGreekOrdered]
    · rcases hM : comdty_vanilla_option evaluation_date expiry_date forward_price k2
          option_type exercise_type steps volatility yield_curve with _ | frM
      · simp [comdty_vanilla_option_butterfly, hL, hM, allGreekOrdered]
      · rcases hH : comdty_vanilla_option evaluation_date expiry_date forward_price k3
            option_type exercise_type steps volatility yield_curve with _ | frH
        · simp [comdty_vanilla_option_butterfly, hL, hM, hH, allGreekOrdered]
        · obtain ⟨p1, d1, g1, t1, v1, r1, h1⟩ :=
            comdty_vanilla_option_shape _ _ _ _ _ _ _ _ _ _ hL
          obtain ⟨p2, d2, g2, t2, v2, r2, h2⟩ :=
            comdty_vanilla_option_shape _ _ _ _ _ _ _ _ _ _ hM
          obtain ⟨p3, d3, g3, t3, v3, r3, h3⟩ :=
            comdty_vanilla_option_shape _ _ _ _ _ _ _ _ _ _ hH
          subst h1
          subst h2
          subst h3
          simp [comdty_vanilla_option_butterfly, hL, hM, hH, allGreekOrdered, greekRows,
            greekOrder, colValues]

/-- On the EUROPEAN branch with a valid expiry and a non-negative strike the
pricer returns exactly the closed-form column. -/
lemma vanilla_european_eval (evaluation_date expiry_date forward_price strike_price : ℝ)
    (option_type : String) (steps : Option ℤ)
    (volatility : ℝ → ℝ → ℝ) (yield_curve : ℝ → ℝ)
    (hT : evaluation_date < expiry_date) (hK : 0 ≤ strike_price) :
    comdty_vanilla_option evaluation_date expiry_date forward_price strike_price option_type
        "EUROPEAN" steps volatility yield_curve
      = some [europeanCol (optionTypeOf option_type) option_type forward_price strike_price
          (volatility (expiry_date - evaluation_date) strike_price) (yield_curve expiry_date)
          (expiry_date - evaluation_date)] := by
  simp only [comdty_vanilla_option, if_neg (by decide : ¬(strUpper "EUROPEAN" = "AMERICAN"))]
  rw [if_neg (by linarith : ¬(expiry_date - evaluation_date ≤ 0)),
    if_neg (by linarith : ¬(strike_price < 0))]

/-- C2 counterexample: an unrecognized option type string is not rejected; the
pricer returns a full result whose rows coincide with those of a PUT. -/
theorem c2_unknown_enum_prices_as_put :
    (comdty_vanilla_option 0 1 100 90 "BANANA" "EUROPEAN" none (fun _ _ => (1/5 : ℝ))
        (fun _ => (1/20 : ℝ))).isSome = true
    ∧ (comdty_vanilla_option 0 1 100 90 "BANANA" "EUROPEAN" none (fun _ _ => (1/5 : ℝ))
        (fun _ => (1/20 : ℝ))).map frameVals
      = (comdty_vanilla_option 0 1 100 90 "PUT" "EUROPEAN" none (fun _ _ => (1/5 : ℝ))
        (fun _ => (1/20 : ℝ))).map frameVals := by
  constructor
  · simp only [comdty_vanilla_option]
    norm_num [(by decide : (strUpper "EUROPEAN" = "AMERICAN") = False)]
  · simp only [comdty_vanilla_option]
    norm_num [(by decide : (strUpper "EUROPEAN" = "AMERICAN") = False),
      (by decide : optionTypeOf "BANANA" = OptType.put),
      (by decide : optionTypeOf "PUT" = OptType.put), frameVals, europeanCol]

/-- C2 amended: `comdty_vanilla_option` performs no enum validation: any
option type whose upper-casing is not CALL is silently priced as a PUT (only
the column label keeps the caller's string), and any exercise style whose
upper-casing is not AMERICAN behaves exactly as EUROPEAN. -/
theorem c2_amended_silent_fallbacks (evaluation_date expiry_date forward_price strike_price : ℝ)
    (option_type exercise_type : String) (steps : Option ℤ)
    (volatility : ℝ → ℝ → ℝ) (yield_curve : ℝ → ℝ)
    (hot : strUpper option_type ≠ "CALL") (hex : strUpper exercise_type ≠ "AMERICAN") :
    (comdty_vanilla_option evaluation_date expiry_date forward_price strike_price option_type
        exercise_type steps volatility yield_curve).map frameVals
      = (comdty_vanilla_option evaluation_date expiry_date forward_price strike_price "PUT"
        exercise_type steps volatility yield_curve).map frameVals
    ∧ comdty_vanilla_option evaluation_date expiry_date forward_price strike_price option_type
        exercise_type steps volatility yield_curve
      = comdty_vanilla_option evaluation_date expiry_date forward_price strike_price option_type
        "EUROPEAN" steps volatility yield_curve := by
  have hput : optionTypeOf option_type = OptType.put := by
    simp [optionTypeOf, hot]
  constructor
  · simp only [comdty_vanilla_option, hput, (by decide : optionTypeOf "PUT" = OptType.put),
      if_neg hex]
    split
    · rfl
    · split
      · rfl
      · simp [frameVals, europeanCol]
  · simp only [comdty_vanilla_option, if_neg hex,
      if_neg (by decide : ¬(strUpper "EUROPEAN" = "AMERICAN"))]

/-- C2 amended witness at concrete inputs. -/
theorem c2_amended_witness :
    strUpper "BANANA" ≠ "CALL" ∧ strUpper "BERMUDAN" ≠ "AMERICAN"
    ∧ ((comdty_vanilla_option 0 1 100 90 "BANANA" "BERMUDAN" none (fun _ _ => (1/5 : ℝ))
          (fun _ => (1/20 : ℝ))).map frameVals
        = (comdty_vanilla_option 0 1 100 90 "PUT" "BERMUDAN" none (fun _ _ => (1/5 : ℝ))
          (fun _ => (1/20 : ℝ))).map frameVals
      ∧ comdty_vanilla_option 0 1 100 90 "BANANA" "BERMUDAN" none (fun _ _ => (1/5 : ℝ))
          (fun _ => (1/20 : ℝ))
        = comdty_vanilla_option 0 1 100 90 "BANANA" "EUROPEAN" none (fun _ _ => (1/5 : ℝ))
          (fun _ => (1/20 : ℝ))) :=
  ⟨by decide, by decide,
    c2_amended_silent_fallbacks 0 1 100 90 "BANANA" "BERMUDAN" none (fun _ _ => (1/5 : ℝ))
      (fun _ => (1/20 : ℝ)) (by decide) (by decide)⟩

/-- C8 counterexample: a request with the non-positive strike 0 does not fail
at all; the pricer builds the process and returns a complete result frame. -/
theorem c8_zero_strike_returns_result :
    (comdty_vanilla_option 0 1 100 0 "CALL" "EUROPEAN" none (fun _ _ => (1/5 : ℝ))
        (fun _ => (1/20 : ℝ))).isSome = true := by
  simp only [comdty_vanilla_option]
  norm_num [(by decide : (strUpper "EUROPEAN" = "AMERICAN") = False)]

/-- C8 amended: `comdty_vanilla_option` performs no precondition validation
and constructs the pricing process unconditionally; in particular every
EUROPEAN request with any non-negative strike (zero included) and an expiry
after the evaluation date returns a full result instead of failing. -/
theorem c8_amended_no_precondition_check (evaluation_date expiry_date forward_price
    strike_price : ℝ) (option_type : String) (steps : Option ℤ)
    (volatility : ℝ → ℝ → ℝ) (yield_curve : ℝ → ℝ)
    (hT : evaluation_date < expiry_date) (hK : 0 ≤ strike_price) :
    (comdty_vanilla_option evaluation_date expiry_date forward_price strike_price option_type
      "EUROPEAN" steps volatility yield_curve).isSome = true := by
  rw [vanilla_european_eval evaluation_date expiry_date forward_price strike_price option_type
    steps volatility yield_curve hT hK]
  rfl

/-- C8 amended witness at concrete inputs. -/
theorem c8_amended_witness :
    (0:ℝ) < 1 ∧ (0:ℝ) ≤ 0
    ∧ (comdty_vanilla_option 0 1 100 0 "PUT" "EUROPEAN" none (fun _ _ => (1/5 : ℝ))
        (fun _ => (1/20 : ℝ))).isSome = true :=
  ⟨by norm_num, le_refl 0,
    c8_amended_no_precondition_check 0 1 100 0 "PUT" none (fun _ _ => (1/5 : ℝ))
      (fun _ => (1/20 : ℝ)) (by norm_num) (le_refl 0)⟩

/-- C3: whenever the two legs price, each field of the `_SPREAD` column is
exactly the long leg's field minus the short leg's field, and the leg columns
are relabelled with the `_LONG`/`_SHORT` suffixes. -/
theorem c3_spread_is_long_minus_short (evaluation_date expiry_date forward_price kL kS : ℝ)
    (option_type exercise_type : String) (steps : Option ℤ)
    (volatility : ℝ → ℝ → ℝ) (yield_curve : ℝ → ℝ)
    (p1 d1 g1 t1 v1 r1 p2 d2 g2 t2 v2 r2 : ℝ)
    (hL : comdty_vanilla_option evaluation_date expiry_date forward_price kL option_type
      exercise_type steps volatility yield_curve
        = some [(option_type, greekRows p1 d1 g1 t1 v1 r1)])
    (hS : comdty_vanilla_option evaluation_date expiry_date forward_price kS option_type
      exercise_type steps volatility yield_curve
        = some [(option_type, greekRows p2 d2 g2 t2 v2 r2)]) :
    comdty_vanilla_option_spread evaluation_date expiry_date forward_price kL kS option_type
        exercise_type steps volatility yield_curve
      = some [(option_type ++ "_LONG", greekRows p1 d1 g1 t1 v1 r1),
          (option_type ++ "_SHORT", greekRows p2 d2 g2 t2 v2 r2),
          (option_type ++ "_SPREAD",
            greekRows (p1 - p2) (d1 - d2) (g1 - g2) (t1 - t2) (v1 - v2) (r1 - r2))] := by
  simp [comdty_vanilla_option_spread, hL, hS, colValues, greekRows]

/-- C3 witness: the spec's example legs (long 100, short 110, forward 105). -/
theorem c3_witness :
    ∃ p1 d1 g1 t1 v1 r1 p2 d2 g2 t2 v2 r2 : ℝ,
      comdty_vanilla_option 0 1 105 100 "CALL" "EUROPEAN" none (fun _ _ => (1/5 : ℝ))
          (fun _ => (1/20 : ℝ)) = some [("CALL", greekRows p1 d1 g1 t1 v1 r1)]
      ∧ comdty_vanilla_option 0 1 105 110 "CALL" "EUROPEAN" none (fun _ _ => (1/5 : ℝ))
          (fun _ => (1/20 : ℝ)) = some [("CALL", greekRows p2 d2 g2 t2 v2 r2)]
      ∧ comdty_vanilla_option_spread 0 1 105 100 110 "CALL" "EUROPEAN" none
          (fun _ _ => (1/5 : ℝ)) (fun _ => (1/20 : ℝ))
        = some [("CALL" ++ "_LONG", greekRows p1 d1 g1 t1 v1 r1),
            ("CALL" ++ "_SHORT", greekRows p2 d2 g2 t2 v2 r2),
            ("CALL" ++ "_SPREAD",
              greekRows (p1 - p2) (d1 - d2) (g1 - g2) (t1 - t2) (v1 - v2) (r1 - r2))] := by
  have hL := vanilla_european_eval 0 1 105 100 "CALL" none (fun _ _ => (1/5 : ℝ))
    (fun _ => (1/20 : ℝ)) (by norm_num) (by norm_num)
  have hS := vanilla_european_eval 0 1 105 110 "CALL" none (fun _ _ => (1/5 : ℝ))
    (fun _ => (1/20 : ℝ)) (by norm_num) (by norm_num)
  simp only [europeanCol] at hL hS
  exact ⟨_, _, _, _, _, _, _, _, _, _, _, _, hL, hS,
    c3_spread_is_long_minus_short 0 1 105 100 110 "CALL" "EUROPEAN" none
      (fun _ _ => (1/5 : ℝ)) (fun _ => (1/20 : ℝ)) _ _ _ _ _ _ _ _ _ _ _ _ hL hS⟩


/-! ### C9 and C6: the calendar-spread simulator -/

/-- C9 counterexample: with `paths = 0` the calendar-spread pricer does not
fail; it returns a frame whose price and payoff rows are NaN (`np.mean` of an
empty array). -/
theorem c9_zero_paths_returns_nan_frame :
    List.lookup "price" (comdty_vanilla_option_calendar_spread 0 1 (1/2) 100 10 "CALL" (1/2)
        (fun _ _ => (1/5 : ℝ)) (fun _ => (1/20 : ℝ)) 0 (fun _ => (120, 100))).2 = some none
    ∧ List.lookup "payoff" (comdty_vanilla_option_calendar_spread 0 1 (1/2) 100 10 "CALL" (1/2)
        (fun _ _ => (1/5 : ℝ)) (fun _ => (1/20 : ℝ)) 0 (fun _ => (120, 100))).2 = some none := by
  constructor <;> simp [comdty_vanilla_option_calendar_spread, List.lookup]

/-- C9 amended: for every input with `paths = 0`, the simulator returns a
result frame whose price and payoff rows are NaN rather than failing with a
precondition violation. -/
theorem c9_amended_zero_paths_nan (evaluation_date expiry_date_long expiry_date_short
    forward_price strike_price : ℝ) (option_type : String) (correlation : ℝ)
    (volatility : ℝ → ℝ → ℝ) (yield_curve : ℝ → ℝ) (draws : ℕ → ℝ × ℝ) :
    List.lookup "price" (comdty_vanilla_option_calendar_spread evaluation_date expiry_date_long
        expiry_date_short forward_price strike_price option_type correlation volatility
        yield_curve 0 draws).2 = some none
    ∧ List.lookup "payoff" (comdty_vanilla_option_calendar_spread evaluation_date expiry_date_long
        expiry_date_short forward_price strike_price option_type correlation volatility
        yield_curve 0 draws).2 = some none := by
  constructor <;> simp [comdty_vanilla_option_calendar_spread, List.lookup]

/-- Pointwise images of the same list zipped. -/
lemma zipWith_map_same {α β γ δ : Type _} (f : β → γ → δ) (g : α → β) (h : α → γ) (l : List α) :
    List.zipWith f (l.map g) (l.map h) = l.map fun x => f (g x) (h x) := by
  induction l with
  | nil => rfl
  | cons a t ih => simp [ih]

/-- Selecting the rate at the earlier of two dates. -/
lemma min_rate_eq (cc : ℝ → ℝ) (a b : ℝ) :
    (if min a b = a then cc a else cc b) = cc (min a b) := by
  by_cases hc : min a b = a
  · rw [if_pos hc, hc]
  · rw [if_neg hc]
    rcases min_choice a b with h | h
    · exact absurd h hc
    · rw [h]

/-- The spec's calendar-spread payoff: the mean over the drawn paths of
`max(spread - K, 0)` for a CALL and `max(K - spread, 0)` for a PUT, with
`spread` the difference of the two terminal values. -/
noncomputable def spec_calendar_payoff (option_type : String) (strike_price : ℝ) (paths : ℕ)
    (draws : ℕ → ℝ × ℝ) : ℝ :=
  (if strUpper option_type = "CALL" then
      ((List.range paths).map fun i => max ((draws i).1 - (draws i).2 - strike_price) 0).sum
    else
      ((List.range paths).map fun i => max (strike_price - ((draws i).1 - (draws i).2)) 0).sum)
    / (paths : ℝ)

/-- The spec's calendar-spread price: the undiscounted payoff multiplied by
`exp(-r·T)` with `r` the zero rate to the nearer expiry and `T` the year
fraction to that same nearer expiry. -/
noncomputable def spec_calendar_price (evaluation_date expiry_date_long expiry_date_short : ℝ)
    (yield_curve : ℝ → ℝ) (option_type : String) (strike_price : ℝ) (paths : ℕ)
    (draws : ℕ → ℝ × ℝ) : ℝ :=
  spec_calendar_payoff option_type strike_price paths draws *
    Real.exp (-(yield_curve (min expiry_date_long expiry_date_short) *
      (min expiry_date_long expiry_date_short - evaluation_date)))

/-- C6: with at least one path, the calendar-spread result rows are exactly
the spec's: the undiscounted payoff is the mean of `max(±(spread - K), 0)`
over the drawn terminal values, and the price discounts it at the zero rate
to the nearer expiry over the year fraction to that same nearer expiry. -/
theorem c6_calendar_spread_payoff_and_price (evaluation_date expiry_date_long expiry_date_short
    forward_price strike_price : ℝ) (option_type : String) (correlation : ℝ)
    (volatility : ℝ → ℝ → ℝ) (yield_curve : ℝ → ℝ) (paths : ℕ) (draws : ℕ → ℝ × ℝ)
    (hp : 0 < paths) :
    (comdty_vanilla_option_calendar_spread evaluation_date expiry_date_long expiry_date_short
        forward_price strike_price option_type correlation volatility yield_curve paths draws).2
      = [("price", some (spec_calendar_price evaluation_date expiry_date_long expiry_date_short
            yield_curve option_type strike_price paths draws)),
          ("payoff", some (spec_calendar_payoff option_type strike_price paths draws)),
          ("risk_free_rate_long", some (yield_curve expiry_date_long)),
          ("risk_free_rate_short", some (yield_curve expiry_date_short)),
          ("volatility_long", some (volatility (expiry_date_long - evaluation_date) forward_price)),
          ("volatility_short", some (volatility (expiry_date_short - evaluation_date)
            forward_price))] := by
  have hpne : paths ≠ 0 := Nat.pos_iff_ne_zero.mp hp
  simp only [comdty_vanilla_option_calendar_spread, if_neg hpne, zipWith_map_same, List.map_map,
    spec_calendar_price, spec_calendar_payoff, min_rate_eq, Function.comp_def,
    Option.map_some']


/-! ### C7: the finite-difference estimators -/

/-- The spec's central finite difference `(f(x+bump) - f(x-bump)) / (2·bump)`. -/
noncomputable def spec_central_diff (f : ℝ → ℝ) (x bump : ℝ) : ℝ :=
  (f (x + bump) - f (x - bump)) / (2 * bump)

/-- C7: `estimate_vega` and `estimate_rho` return exactly the central
difference of the tree price, re-pricing the same option contract with the
volatility (resp. zero rate) shifted by `±bump` and the same number of lattice
steps; the defaults are 0.01 volatility points and 0.001 of rate. -/
theorem c7_estimators_are_central_differences (evalDate : ℝ) (opt : QlOption)
    (process : QlProcess) (volatility : ℝ → ℝ → ℝ) (yield_curve : ℝ → ℝ)
    (strike_price expiry_date : ℝ) (steps : ℕ) (bump : ℝ) (hb : bump ≠ 0) :
    (estimate_vega evalDate opt process volatility strike_price expiry_date steps bump).1
      = some (spec_central_diff
          (fun v => crrNPV opt.ot process.x0 opt.strike v (process.rate opt.expiry)
            (opt.expiry - evalDate) steps)
          (volatility (expiry_date - evalDate) strike_price) bump)
    ∧ (estimate_vega evalDate opt process volatility strike_price expiry_date steps bump).2.steps
        = steps
    ∧ (estimate_rho evalDate opt process yield_curve volatility expiry_date steps bump).1
      = some (spec_central_diff
          (fun r => crrNPV opt.ot process.x0 opt.strike
            (volatility (opt.expiry - evalDate) opt.strike) r (opt.expiry - evalDate) steps)
          (yield_curve expiry_date) bump)
    ∧ (estimate_rho evalDate opt process yield_curve volatility expiry_date steps bump).2.steps
        = steps
    ∧ vegaBumpDefault = 1 / 100 ∧ rhoBumpDefault = 1 / 1000 := by
  refine ⟨?_, rfl, ?_, rfl, rfl, rfl⟩
  · simp [estimate_vega, engineNPV, spec_central_diff, hb]
  · simp [estimate_rho, engineNPV, spec_central_diff, hb]

/-- C7 witness at a concrete option, process and bump. -/
theorem c7_witness :
    (1 : ℝ) ≠ 0
    ∧ (estimate_vega 0 ⟨OptType.call, 100, 1⟩ ⟨100, fun _ => (1/20 : ℝ), fun _ _ => (1/5 : ℝ)⟩
        (fun _ _ => (1/5 : ℝ)) 100 1 2 1).1
      = some (spec_central_diff
          (fun v => crrNPV OptType.call 100 100 v (1/20) ((1:ℝ) - 0) 2) (1/5) 1) :=
  ⟨by norm_num,
    (c7_estimators_are_central_differences 0 ⟨OptType.call, 100, 1⟩
      ⟨100, fun _ => (1/20 : ℝ), fun _ _ => (1/5 : ℝ)⟩ (fun _ _ => (1/5 : ℝ))
      (fun _ => (1/20 : ℝ)) 100 1 2 1 (by norm_num)).1⟩

/-! ### C4 and C5: the delta-implied strike solver -/

/-- The argument handed to the inverse normal by the delta solver:
`delta·e^{rT}` for a CALL and `delta·e^{rT} + 1` otherwise. -/
noncomputable def spec_delta_arg (option_type : String) (delta r T : ℝ) : ℝ :=
  if strUpper option_type = "CALL" then delta * Real.exp (r * T)
  else delta * Real.exp (r * T) + 1

/-- The spec's d1: `Φ⁻¹` of the (in-domain) inverse-normal argument. -/
noncomputable def spec_delta_d1 (option_type : String) (delta r T : ℝ) : ℝ :=
  normPpf (spec_delta_arg option_type delta r T)

/-- The spec's implied strike `forward / exp(vol·√T·d1 - vol²·T/2)`. -/
noncomputable def spec_delta_strike (forward_price vol T d1v : ℝ) : ℝ :=
  forward_price / Real.exp (vol * Real.sqrt T * d1v - (vol ^ 2 / 2) * T)

/-- The result the spec prescribes for the delta solver: price a EUROPEAN
option at the implied strike (using the ATM volatility at `(T, forward)` and
the continuously compounded zero rate to expiry) and append the audit rows
d1, risk-free rate, ATM volatility, time to maturity and the strike itself. -/
noncomputable def spec_delta_result (evaluation_date expiry_date forward_price delta : ℝ)
    (option_type : String) (volatility : ℝ → ℝ → ℝ) (yield_curve : ℝ → ℝ) : Option Frame :=
  let T := expiry_date - evaluation_date
  let r := yield_curve expiry_date
  let vol := volatility T forward_price
  let dv := spec_delta_d1 option_type delta r T
  let K := spec_delta_strike forward_price vol T dv
  (comdty_vanilla_option evaluation_date expiry_date forward_price K option_type "EUROPEAN" none
      volatility yield_curve).map fun fr =>
    fr.map fun c =>
      (c.1, c.2 ++ [("d1", dv), ("riskfree_rate", r), ("volatility_atm", vol),
        ("years_to_maturity", T), ("strike_price", K)])

/-- `scipy.stats.norm.ppf` is finite on the open unit interval. -/
lemma scipy_norm_ppf_fin {p : ℝ} (h0 : 0 < p) (h1 : p < 1) :
    scipy_norm_ppf p = ScipyPpf.fin (normPpf p) := by
  simp only [scipy_norm_ppf]
  rw [if_neg (by intro hx; rw [hx] at h0; exact lt_irrefl 0 h0),
    if_neg (by intro hx; rw [hx] at h1; exact lt_irrefl 1 h1),
    if_pos (And.intro h0 h1)]

/-- `scipy.stats.norm.ppf` is NaN strictly outside the closed unit interval. -/
lemma scipy_norm_ppf_nan {p : ℝ} (h : p < 0 ∨ 1 < p) : scipy_norm_ppf p = ScipyPpf.nan := by
  have hne0 : ¬(p = 0) := by
    rcases h with h | h <;> intro hx <;> rw [hx] at h <;> linarith
  have hne1 : ¬(p = 1) := by
    rcases h with h | h <;> intro hx <;> rw [hx] at h <;> linarith
  have hno : ¬(0 < p ∧ p < 1) := by
    rcases h with h | h <;> intro hx <;> linarith [hx.1, hx.2]
  simp only [scipy_norm_ppf]
  rw [if_neg hne0, if_neg hne1, if_neg hno]

/-- `scipy.stats.norm.ppf` at exactly 1 is `+inf`. -/
lemma scipy_norm_ppf_one : scipy_norm_ppf 1 = ScipyPpf.posInf := by
  simp only [scipy_norm_ppf]
  norm_num

/-- C4: for an in-domain target delta the solver computes exactly the spec's
d1 and strike and prices the EUROPEAN option there, returning the audit rows. -/
theorem c4_delta_solver_matches_spec (evaluation_date expiry_date forward_price delta : ℝ)
    (option_type : String) (volatility : ℝ → ℝ → ℝ) (yield_curve : ℝ → ℝ)
    (h0 : 0 < spec_delta_arg option_type delta (yield_curve expiry_date)
      (expiry_date - evaluation_date))
    (h1 : spec_delta_arg option_type delta (yield_curve expiry_date)
      (expiry_date - evaluation_date) < 1) :
    comdty_vanilla_option_delta evaluation_date expiry_date forward_price delta option_type
        volatility yield_curve
      = spec_delta_result evaluation_date expiry_date forward_price delta option_type
        volatility yield_curve := by
  by_cases hc : strUpper option_type = "CALL"
  · simp only [spec_delta_arg, if_pos hc] at h0 h1
    simp only [comdty_vanilla_option_delta, spec_delta_result, spec_delta_d1, spec_delta_strike,
      spec_delta_arg, if_pos hc, scipy_norm_ppf_fin h0 h1, delta_strike_of_ppf,
      Option.map_some', comdty_vanilla_option_flt]
    split
    · rename_i heq
      rw [heq]
      rfl
    · rename_i fr heq
      rw [heq]
      rfl
  · simp only [spec_delta_arg, if_neg hc] at h0 h1
    simp only [comdty_vanilla_option_delta, spec_delta_result, spec_delta_d1, spec_delta_strike,
      spec_delta_arg, if_neg hc, scipy_norm_ppf_fin h0 h1, delta_strike_of_ppf,
      Option.map_some', comdty_vanilla_option_flt]
    split
    · rename_i heq
      rw [heq]
      rfl
    · rename_i fr heq
      rw [heq]
      rfl

/-- C4 witness: a call with target delta 1/2 under a zero rate. -/
theorem c4_witness :
    0 < spec_delta_arg "CALL" (1/2) ((fun _ => (0:ℝ)) 1) ((1:ℝ) - 0)
    ∧ spec_delta_arg "CALL" (1/2) ((fun _ => (0:ℝ)) 1) ((1:ℝ) - 0) < 1
    ∧ comdty_vanilla_option_delta 0 1 100 (1/2) "CALL" (fun _ _ => (1/5 : ℝ)) (fun _ => (0:ℝ))
      = spec_delta_result 0 1 100 (1/2) "CALL" (fun _ _ => (1/5 : ℝ)) (fun _ => (0:ℝ)) := by
  have h0 : 0 < spec_delta_arg "CALL" (1/2) ((fun _ => (0:ℝ)) 1) ((1:ℝ) - 0) := by
    norm_num [spec_delta_arg, (by decide : strUpper "CALL" = "CALL"), Real.exp_zero]
  have h1 : spec_delta_arg "CALL" (1/2) ((fun _ => (0:ℝ)) 1) ((1:ℝ) - 0) < 1 := by
    norm_num [spec_delta_arg, (by decide : strUpper "CALL" = "CALL"), Real.exp_zero]
  exact ⟨h0, h1, c4_delta_solver_matches_spec 0 1 100 (1/2) "CALL" (fun _ _ => (1/5 : ℝ))
    (fun _ => (0:ℝ)) h0 h1⟩

/-- C5 counterexample: for the out-of-domain call delta 2 the derived strike
is non-finite (NaN, `none`), it is exactly what the solver hands to the
pricing step, and the call fails there rather than at the inversion boundary;
for the out-of-domain put delta 0 (inverse-normal argument exactly 1, so ppf
is `+inf`) the float arithmetic instead yields the finite strike `0.0` and a
complete result frame IS returned, so no failure is reported at all. -/
theorem c5_nan_strike_reaches_pricer :
    comdty_vanilla_option_delta_strike 0 1 100 2 "CALL" (fun _ _ => (1/5 : ℝ)) (fun _ => (0:ℝ))
      = none
    ∧ comdty_vanilla_option_delta 0 1 100 2 "CALL" (fun _ _ => (1/5 : ℝ)) (fun _ => (0:ℝ))
      = comdty_vanilla_option_flt 0 1 100 "CALL" "EUROPEAN" none (fun _ _ => (1/5 : ℝ))
          (fun _ => (0:ℝ))
          (comdty_vanilla_option_delta_strike 0 1 100 2 "CALL" (fun _ _ => (1/5 : ℝ))
            (fun _ => (0:ℝ)))
    ∧ comdty_vanilla_option_delta 0 1 100 2 "CALL" (fun _ _ => (1/5 : ℝ)) (fun _ => (0:ℝ))
      = none
    ∧ comdty_vanilla_option_delta_strike 0 1 100 0 "PUT" (fun _ _ => (1/5 : ℝ))
        (fun _ => (0:ℝ)) = some 0
    ∧ (comdty_vanilla_option_delta 0 1 100 0 "PUT" (fun _ _ => (1/5 : ℝ))
        (fun _ => (0:ℝ))).isSome = true := by
  refine ⟨?_, ?_, ?_, ?_, ?_⟩
  · norm_num [comdty_vanilla_option_delta_strike, scipy_norm_ppf, delta_strike_of_ppf,
      (by decide : strUpper "CALL" = "CALL"), Real.exp_zero]
  · norm_num [comdty_vanilla_option_delta, comdty_vanilla_option_delta_strike,
      comdty_vanilla_option_flt, scipy_norm_ppf, delta_strike_of_ppf,
      (by decide : strUpper "CALL" = "CALL"), Real.exp_zero]
  · norm_num [comdty_vanilla_option_delta, comdty_vanilla_option_flt, scipy_norm_ppf,
      delta_strike_of_ppf, (by decide : strUpper "CALL" = "CALL"), Real.exp_zero]
  · norm_num [comdty_vanilla_option_delta_strike, scipy_norm_ppf, delta_strike_of_ppf,
      (by decide : (strUpper "PUT" = "CALL") = False), Real.exp_zero, Real.sqrt_one]
  · norm_num [comdty_vanilla_option_delta, comdty_vanilla_option_flt, comdty_vanilla_option,
      scipy_norm_ppf, delta_strike_of_ppf,
      (by decide : (strUpper "PUT" = "CALL") = False),
      (by decide : (strUpper "EUROPEAN" = "AMERICAN") = False), Real.exp_zero, Real.sqrt_one]

/-- C5 amended: for every target delta whose inverse-normal argument lies
strictly outside `[0,1]`, the ppf step yields NaN, the NaN strike is handed to
the pricing call, and the whole call returns nothing; no clamping occurs and
the failure arises at the pricing step's strike check, not as a boundary
domain error.  (At an argument of exactly 0 or 1 the d1 is `±inf` instead and
the float strike arithmetic can produce the finite strike `0.0`, in which
case a full result frame is returned, as the counterexample shows.) -/
theorem c5_amended_out_of_domain_propagates (evaluation_date expiry_date forward_price delta : ℝ)
    (option_type : String) (volatility : ℝ → ℝ → ℝ) (yield_curve : ℝ → ℝ)
    (h : spec_delta_arg option_type delta (yield_curve expiry_date)
        (expiry_date - evaluation_date) < 0
      ∨ 1 < spec_delta_arg option_type delta (yield_curve expiry_date)
        (expiry_date - evaluation_date)) :
    comdty_vanilla_option_delta_strike evaluation_date expiry_date forward_price delta
        option_type volatility yield_curve = none
    ∧ comdty_vanilla_option_delta evaluation_date expiry_date forward_price delta option_type
        volatility yield_curve = none := by
  by_cases hc : strUpper option_type = "CALL"
  · simp only [spec_delta_arg, if_pos hc] at h
    constructor
    · simp [comdty_vanilla_option_delta_strike, hc, scipy_norm_ppf_nan h, delta_strike_of_ppf]
    · simp [comdty_vanilla_option_delta, comdty_vanilla_option_flt, hc, scipy_norm_ppf_nan h,
        delta_strike_of_ppf]
  · simp only [spec_delta_arg, if_neg hc] at h
    constructor
    · simp [comdty_vanilla_option_delta_strike, hc, scipy_norm_ppf_nan h, delta_strike_of_ppf]
    · simp [comdty_vanilla_option_delta, comdty_vanilla_option_flt, hc, scipy_norm_ppf_nan h,
        delta_strike_of_ppf]

/-- C5 amended witness: a put with target delta 1/2 under a zero rate has
inverse-normal argument 3/2, strictly above 1. -/
theorem c5_amended_witness :
    (spec_delta_arg "PUT" (1/2) ((fun _ => (0:ℝ)) 1) ((1:ℝ) - 0) < 0
      ∨ 1 < spec_delta_arg "PUT" (1/2) ((fun _ => (0:ℝ)) 1) ((1:ℝ) - 0))
    ∧ comdty_vanilla_option_delta_strike 0 1 100 (1/2) "PUT" (fun _ _ => (1/5 : ℝ))
        (fun _ => (0:ℝ)) = none
    ∧ comdty_vanilla_option_delta 0 1 100 (1/2) "PUT" (fun _ _ => (1/5 : ℝ))
        (fun _ => (0:ℝ)) = none := by
  have h : spec_delta_arg "PUT" (1/2) ((fun _ => (0:ℝ)) 1) ((1:ℝ) - 0) < 0
      ∨ 1 < spec_delta_arg "PUT" (1/2) ((fun _ => (0:ℝ)) 1) ((1:ℝ) - 0) := by
    right
    norm_num [spec_delta_arg, (by decide : (strUpper "PUT" = "CALL") = False), Real.exp_zero]
  have h2 := c5_amended_out_of_domain_propagates 0 1 100 (1/2) "PUT" (fun _ _ => (1/5 : ℝ))
    (fun _ => (0:ℝ)) h
  exact ⟨h, h2.1, h2.2⟩


/-- C6 witness: two paths with constant terminal values (120, 100), strike 10,
nearer expiry 1/2, flat curve 1/20; the payoff evaluates to 10. -/
theorem c6_witness :
    0 < 2
    ∧ (comdty_vanilla_option_calendar_spread 0 1 (1/2) 100 10 "CALL" (1/2)
        (fun _ _ => (1/5 : ℝ)) (fun _ => (1/20 : ℝ)) 2 (fun _ => (120, 100))).2
      = [("price", some (spec_calendar_price 0 1 (1/2) (fun _ => (1/20 : ℝ)) "CALL" 10 2
            (fun _ => (120, 100)))),
         ("payoff", some (spec_calendar_payoff "CALL" 10 2 (fun _ => (120, 100)))),
         ("risk_free_rate_long", some (1/20)),
         ("risk_free_rate_short", some (1/20)),
         ("volatility_long", some (1/5)),
         ("volatility_short", some (1/5))]
    ∧ spec_calendar_payoff "CALL" 10 2 (fun _ => ((120 : ℝ), (100 : ℝ))) = 10 :=
  ⟨by norm_num,
    c6_calendar_spread_payoff_and_price 0 1 (1/2) 100 10 "CALL" (1/2)
      (fun _ _ => (1/5 : ℝ)) (fun _ => (1/20 : ℝ)) 2 (fun _ => (120, 100)) (by norm_num),
    by norm_num [spec_calendar_payoff, (by decide : strUpper "CALL" = "CALL"),
      (by decide : List.range 2 = [0, 1]), max_def]⟩

end QuantSpace
